import Mathlib

/-!
Shallow embedding of `donate/models.py` (WeVoteServer donation module) and
verification of its specification claims.

Conventions of the embedding:
* Django querysets over a model table are `List Row`; `objects.filter`
  is `List.filter`, `objects.get` is `getUnique` (exactly one match or a
  typed error), `order_by('-col')` is a descending sort on the column.
* Timestamps and day-granularity dates are `Nat` (order-preserving
  integer encodings); nullable columns are `Option`.
* Python exceptions that the source lets escape are the `.error` branch
  of an `Except`; caught-and-swallowed exceptions are ordinary returns.
* `textwrap.shorten` is modelled by `shorten` per its documented
  contract (collapse whitespace; if the result does not fit, drop words
  from the end so that the kept words plus the placeholder fit).
-/

namespace WeVote

/-- Errors a Python statement can raise in this module: the Django ORM's
`DoesNotExist` / `MultipleObjectsReturned` / `IntegrityError`, Python's
`UnboundLocalError`, and an escaping `stripe.error.StripeError`. -/
inductive PyError where
  | doesNotExist
  | multipleObjectsReturned
  | integrityError
  | unboundLocalError
  | stripeError
  deriving DecidableEq, Repr

/-- Django `Model.objects.get(...)`: exactly one matching row, else a
typed error. -/
def getUnique (db : List α) (p : α → Bool) : Except PyError α :=
  match db.filter p with
  | [] => .error .doesNotExist
  | [r] => .ok r
  | _ :: _ :: _ => .error .multipleObjectsReturned

/-- ASCII lower-casing, `str.lower()` on the identifiers this module
compares. -/
def lowerStr (s : String) : String := String.mk (s.data.map Char.toLower)

/-- Django `__iexact`: case-insensitive equality on identifier columns. -/
def iexact (a b : String) : Bool := lowerStr a == lowerStr b

/-- Does `pat` occur at the start of `s`? -/
def charsStartWith : List Char → List Char → Bool
  | [], _ => true
  | _ :: _, [] => false
  | p :: ps, c :: cs => p == c && charsStartWith ps cs

/-- Does `pat` occur anywhere in `s`? -/
def charsHasInfix (pat : List Char) : List Char → Bool
  | [] => charsStartWith pat []
  | c :: cs => charsStartWith pat (c :: cs) || charsHasInfix pat cs

/-- Python's substring test `pat in s`. -/
def pyInStr (pat s : String) : Bool := charsHasInfix pat.data s.data

/-- Number of positions of `s` at which `pat` occurs. -/
def countOccAux (pat : List Char) : List Char → Nat
  | [] => 0
  | c :: cs => (if charsStartWith pat (c :: cs) then 1 else 0) + countOccAux pat cs

/-- Number of occurrences of the substring `pat` in `s`. -/
def countSubstr (pat s : String) : Nat := countOccAux pat.data s.data

/-- Does `s` end with `suffix`? -/
def endsWithStr (s suffix : String) : Bool :=
  s.data.drop (s.data.length - suffix.data.length) == suffix.data

/-- Modelled from the spec: `positive_value_exists` (imported from
`wevote_functions.functions`, not under `src/`) is a presence test; on
the string identifiers this module feeds it, it holds exactly for
non-empty strings. -/
def positive_value_exists (s : String) : Bool := s != ""

/-! ### `textwrap.shorten` -/

/-- The whitespace-separated words of a string (CPython `text.split()`),
accumulating the current word in reverse. -/
def wordsAux (cur : List Char) : List Char → List (List Char)
  | [] => if cur.isEmpty then [] else [cur.reverse]
  | c :: cs =>
    if c.isWhitespace then
      if cur.isEmpty then wordsAux [] cs else cur.reverse :: wordsAux [] cs
    else wordsAux (c :: cur) cs

/-- The whitespace-separated words of a string. -/
def pyWords (s : String) : List String := (wordsAux [] s.data).map String.mk

/-- Join words with single spaces. -/
def joinSpace : List String → String
  | [] => ""
  | [w] => w
  | w :: ws => w ++ " " ++ joinSpace ws

/-- Whitespace collapsing: runs of whitespace become single spaces,
leading/trailing whitespace is dropped (the first phase of
`textwrap.shorten`). -/
def collapse (s : String) : String := joinSpace (pyWords s)

/-- Extend the already-kept text `acc` by one more word. -/
def joinAcc (acc w : String) : String := if acc == "" then w else acc ++ " " ++ w

/-- Word-dropping phase of `textwrap.shorten`: keep the longest prefix
of words whose joined length plus the placeholder fits in `width`; if
not even the first word fits, the result is the placeholder alone. -/
def fitWords (acc : String) (ws : List String) (width : Nat) (ph : String) : String :=
  match ws with
  | [] => acc ++ ph
  | w :: rest =>
    if (joinAcc acc w).length + ph.length ≤ width then fitWords (joinAcc acc w) rest width ph
    else if acc == "" then ph else acc ++ ph

/-- `textwrap.shorten(text, width, placeholder=ph)` per its documented
contract: collapse whitespace; return the collapsed text if it fits in
`width`, else drop words from the end so the kept words plus `ph` fit.
(For text chunked at hyphens CPython may keep part of a hyphenated word;
the module's generated status clauses contain only underscores, where
the documented word-level contract is exact.) -/
def shorten (text : String) (width : Nat) (ph : String) : String :=
  let j := collapse text
  if j.length ≤ width then j else fitWords "" (pyWords text) width ph

/-- `order_by` descending on a `Nat`-valued column. -/
def orderByDescNat (key : α → Nat) (l : List α) : List α :=
  List.insertionSort (fun a b => key b ≤ key a) l

/-- `OrganizationSubscriptionPlans`: an immutable, versioned coupon row.
`id` is the Django primary key; `coupon_expires_date` and
`plan_created_at` are order-preserving integer encodings of the stored
datetimes (day-granularity for the expiry, per
`convert_date_to_date_as_integer`). -/
structure OrganizationSubscriptionPlans where
  id : Nat
  coupon_code : String
  coupon_expires_date : Option Nat
  plan_type_enum : String
  plan_created_at : Nat
  coupon_applied_message : String
  monthly_price_stripe : Nat
  annual_price_stripe : Nat
  features_provided_bitmap : Int
  deriving DecidableEq, Repr

/-- `DonationJournal`: one row per billing-relevant event (the fields
the verified operations touch). -/
structure DonationJournal where
  id : Nat
  record_enum : String
  voter_we_vote_id : String
  not_loggedin_voter_we_vote_id : Option String
  stripe_customer_id : String
  charge_id : String
  subscription_id : String
  subscription_plan_id : String
  amount : Nat
  amount_refunded : Nat
  last4 : Nat
  stripe_status : String
  status : String
  last_charged : Option Nat
  deriving DecidableEq, Repr

/-- A stripe refund event as consumed by
`update_journal_entry_for_refund`. -/
structure RefundEvent where
  amount : Nat
  status : String
  created : Nat
  currency : String
  id : String
  deriving DecidableEq, Repr

/-- `DonationInvoice`: the short-lived invoice cache row. -/
structure DonationInvoice where
  subscription_id : String
  donation_plan_id : String
  invoice_id : String
  invoice_date : Option Nat
  stripe_customer_id : String
  deriving DecidableEq, Repr

/-- `DonationPlanDefinition`: a recurring billing plan row.
`voter_we_vote_id` and `organization_we_vote_id` are nullable columns
with a storage-level uniqueness constraint (`unique=True`). -/
structure DonationPlanDefinition where
  donation_plan_id : String
  plan_name : String
  base_cost : Int
  billing_interval : String
  currency : String
  donation_plan_is_active : Bool
  is_organization_plan : Bool
  voter_we_vote_id : Option String
  organization_we_vote_id : Option String
  organization_subscription_plan_id : Int
  deriving DecidableEq, Repr

/-! ### Plan Catalog: coupon lookup -/

/-- The queryset
`OrganizationSubscriptionPlans.objects.filter(plan_type_enum=...,
coupon_code=...).order_by('-plan_created_at')` shared by
`validate_coupon` and `get_coupon_price`. -/
def couponQuery (db : List OrganizationSubscriptionPlans)
    (plan_type_enum coupon_code : String) : List OrganizationSubscriptionPlans :=
  orderByDescNat (fun c => c.plan_created_at)
    (db.filter (fun c => c.plan_type_enum == plan_type_enum && c.coupon_code == coupon_code))

/-- Result record of `validate_coupon`. -/
structure ValidateCouponResults where
  coupon_applied_message : String
  coupon_match_found : Bool
  coupon_still_valid : Bool
  monthly_price_stripe : Nat
  annual_price_stripe : Nat
  status : String
  success : Bool
  deriving DecidableEq, Repr

/-- `DonationManager.validate_coupon`. `today` is today's date as the
day-granularity integer `convert_date_to_date_as_integer` produces. -/
def validate_coupon (db : List OrganizationSubscriptionPlans) (today : Nat)
    (plan_type_enum coupon_code : String) : ValidateCouponResults :=
  match couponQuery db plan_type_enum coupon_code with
  | [] =>
    { coupon_applied_message := "", coupon_match_found := false, coupon_still_valid := false,
      monthly_price_stripe := 0, annual_price_stripe := 0,
      status := "COUPON_MATCH_NOT_FOUND ", success := false }
  | coupon :: _ =>
    let coupon_still_valid :=
      match coupon.coupon_expires_date with
      | none => true
      | some expires => today < expires
    { coupon_applied_message := coupon.coupon_applied_message, coupon_match_found := true,
      coupon_still_valid,
      monthly_price_stripe :=
        if pyInStr "MONTHLY" plan_type_enum then coupon.monthly_price_stripe else 0,
      annual_price_stripe :=
        if pyInStr "MONTHLY" plan_type_enum then 0 else coupon.annual_price_stripe,
      status := "COUPON_MATCH_FOUND ", success := true }

/-- `DonationManager.get_coupon_price`: `(price, org_subs_id)`, both
`-1` when the lookup throws (no matching coupon: `IndexError` on
`coupon_queryset[0]`, caught and logged). -/
def get_coupon_price (db : List OrganizationSubscriptionPlans)
    (plan_type_enum coupon_code : String) : Int × Int :=
  match couponQuery db plan_type_enum coupon_code with
  | [] => (-1, -1)
  | coupon :: _ =>
    ((if pyInStr "MONTHLY" plan_type_enum then (coupon.monthly_price_stripe : Int)
      else (coupon.annual_price_stripe : Int)), (coupon.id : Int))

/-! ### Billing Journal: refund folding -/

/-- `row.save()` after mutating the row(s) selected by `p`. -/
def saveWhere (p : α → Bool) (f : α → α) (db : List α) : List α :=
  db.map (fun r => if p r then f r else r)

/-- The row filter
`charge_id__iexact=charge, voter_we_vote_id__iexact=voter_we_vote_id`
used by both refund-folding entry points. -/
def refundMatch (charge voter_we_vote_id : String) (r : DonationJournal) : Bool :=
  iexact r.charge_id charge && iexact r.voter_we_vote_id voter_we_vote_id

/-- The raw status text `update_journal_entry_for_refund` builds before
truncation. -/
def refundRawStatus (rf : RefundEvent) (r : DonationJournal) : String :=
  r.status ++ " CHARGE_REFUND_REQUESTED" ++ "_" ++ toString rf.created ++ "_" ++ rf.currency
    ++ "_" ++ toString rf.amount ++ "_REFUND_ID" ++ rf.id ++ " "

/-- The row mutation `update_journal_entry_for_refund` performs. -/
def applyRefund (rf : RefundEvent) (r : DonationJournal) : DonationJournal :=
  { r with
    status := shorten (refundRawStatus rf r) 255 "...",
    amount_refunded := rf.amount,
    stripe_status := "refund pending" }

/-- `DonationManager.update_journal_entry_for_refund`. A falsy/zero/
non-succeeded refund returns `"False"` without touching storage; a
qualifying refund fetches the row with `objects.get` (whose
`DoesNotExist`/`MultipleObjectsReturned` is NOT caught here) and
mutates it. -/
def update_journal_entry_for_refund (db : List DonationJournal)
    (charge voter_we_vote_id : String) (refund : Option RefundEvent) :
    Except PyError (String × List DonationJournal) :=
  match refund with
  | none => .ok ("False", db)
  | some rf =>
    if rf.amount > 0 && rf.status == "succeeded" then
      match getUnique db (refundMatch charge voter_we_vote_id) with
      | .error e => .error e
      | .ok _ =>
        .ok ("True", saveWhere (refundMatch charge voter_we_vote_id) (applyRefund rf) db)
    else .ok ("False", db)

/-- The raw status text `update_journal_entry_for_already_refunded`
builds before truncation; `now_str` is `str(datetime.utcnow())`. -/
def alreadyRefundedRawStatus (now_str : String) (r : DonationJournal) : String :=
  r.status ++ "CHARGE_WAS_ALREADY_REFUNDED_" ++ now_str ++ " "

/-- The row mutation `update_journal_entry_for_already_refunded`
performs. -/
def applyAlreadyRefunded (now_str : String) (r : DonationJournal) : DonationJournal :=
  { r with
    status := shorten (alreadyRefundedRawStatus now_str r) 255 "...",
    amount_refunded := r.amount,
    stripe_status := "refunded" }

/-- `DonationManager.update_journal_entry_for_already_refunded`:
unconditional `objects.get` (errors propagate) then mutate-and-save. -/
def update_journal_entry_for_already_refunded (db : List DonationJournal)
    (charge voter_we_vote_id now_str : String) :
    Except PyError (String × List DonationJournal) :=
  match getUnique db (refundMatch charge voter_we_vote_id) with
  | .error e => .error e
  | .ok _ =>
    .ok ("True", saveWhere (refundMatch charge voter_we_vote_id)
      (applyAlreadyRefunded now_str) db)

/-- Repeated invocations of
`update_journal_entry_for_already_refunded`, one per timestamp. -/
def already_refunded_iter (db : List DonationJournal) (charge voter_we_vote_id : String) :
    List String → Except PyError (List DonationJournal)
  | [] => .ok db
  | t :: ts =>
    match update_journal_entry_for_already_refunded db charge voter_we_vote_id t with
    | .error e => .error e
    | .ok (_, db2) => already_refunded_iter db2 charge voter_we_vote_id ts

/-- The raw status text `update_journal_entry_for_refund_completed`
builds before truncation. -/
def refundCompletedRawStatus (now_str : String) (r : DonationJournal) : String :=
  r.status ++ "CHARGE_REFUNDED_" ++ now_str ++ " "

/-- The row mutation `update_journal_entry_for_refund_completed`
performs. -/
def applyRefundCompleted (now_str : String) (r : DonationJournal) : DonationJournal :=
  { r with
    status := shorten (refundCompletedRawStatus now_str r) 255 "...",
    stripe_status := "refunded" }

/-- `DonationManager.update_journal_entry_for_refund_completed`:
`objects.get(charge_id=charge)` (exact match); `DoesNotExist` is caught
and reported as `"False"`, `MultipleObjectsReturned` propagates. -/
def update_journal_entry_for_refund_completed (db : List DonationJournal)
    (charge now_str : String) : Except PyError (String × List DonationJournal) :=
  match getUnique db (fun r => r.charge_id == charge) with
  | .error .doesNotExist => .ok ("False", db)
  | .error e => .error e
  | .ok _ =>
    .ok ("True", saveWhere (fun r => r.charge_id == charge) (applyRefundCompleted now_str) db)

/-- `DonationManager.check_for_subscription_in_db_without_card_info`:
order all journal rows by `-id`, filter on `subscription_plan_id`, then
inspect only the FIRST row: its id if its `last4` is 0, else `-1`. -/
def check_for_subscription_in_db_without_card_info (db : List DonationJournal)
    (plan_id : String) : Int :=
  match (orderByDescNat (fun r => r.id) db).filter
      (fun r => r.subscription_plan_id == plan_id) with
  | [] => -1
  | row :: _ => if row.last4 == 0 then (row.id : Int) else -1

/-- Result record of `move_donations_between_donors` (the voter objects
it echoes back are dropped; callers read `status`/`success`). -/
structure MoveDonationsResults where
  status : String
  success : Bool
  deriving DecidableEq, Repr

/-- `DonationManager.move_donations_between_donors`, with the two voter
arguments reduced to their `we_vote_id`s. Uses `objects.get` on the
from-voter: `DoesNotExist` ⇒ "no donations to move" with
`success=False`; `MultipleObjectsReturned` falls to the generic handler;
a unique row is rewritten to the to-voter. -/
def move_donations_between_donors (db : List DonationJournal)
    (from_we_vote_id to_we_vote_id : String) : MoveDonationsResults × List DonationJournal :=
  match getUnique db (fun r => iexact r.voter_we_vote_id from_we_vote_id) with
  | .error .doesNotExist =>
    ({ status := " NO-DONATIONS-TO-MOVE-FROM-" ++ from_we_vote_id ++ "-TO-"
        ++ to_we_vote_id ++ " ", success := false }, db)
  | .error _ =>
    ({ status := " EXCEPTION-IN-move_donations_between_donors ", success := false }, db)
  | .ok _ =>
    ({ status := "move_donations_between_donors MOVED-DONATIONS-FROM-" ++ from_we_vote_id
        ++ "-TO-" ++ to_we_vote_id ++ " ", success := true },
     saveWhere (fun r => iexact r.voter_we_vote_id from_we_vote_id)
       (fun r => { r with voter_we_vote_id := to_we_vote_id }) db)

/-! ### Invoice Cache -/

/-- Result record of `update_donation_invoice`. -/
structure SavedInvoiceResults where
  success : Bool
  status : String
  history_entry_saved : DonationInvoice
  deriving DecidableEq, Repr

/-- Reading a Python local that may never have been assigned:
`UnboundLocalError` if unbound. -/
def readLocal : Option α → Except PyError α
  | some v => .ok v
  | none => .error .unboundLocalError

/-- `DonationManager.update_donation_invoice` (the spec's
`stage_invoice`). `createOk` is the storage oracle: whether
`DonationInvoice.objects.create` succeeds or raises. In the source the
locals `status` and `new_invoice_entry` are assigned only inside the
`try`; the `except` sets only `success = False`, and the result dict is
then built from all three locals. -/
def update_donation_invoice (createOk : Bool) (db : List DonationInvoice)
    (subscription_id donation_plan_id invoice_id : String) (invoice_date : Option Nat)
    (customer_id : String) : Except PyError (SavedInvoiceResults × List DonationInvoice) :=
  let row : DonationInvoice :=
    { subscription_id, donation_plan_id, invoice_id, invoice_date,
      stripe_customer_id := customer_id }
  let state :=
    if createOk then (true, some "NEW_INVOICE_ENTRY_SAVED", some row, db ++ [row])
    else (false, (none : Option String), (none : Option DonationInvoice), db)
  match readLocal state.2.1 with
  | .error e => .error e
  | .ok status =>
    match readLocal state.2.2.1 with
    | .error e => .error e
    | .ok entry =>
      .ok ({ success := state.1, status, history_entry_saved := entry }, state.2.2.2)

/-- Execution trace of `update_subscription_with_latest_charge_date`:
how many invoice lookups ran, whether the 10-second `time.sleep`
happened, whether an exception escaped to the caller, and the resulting
journal and invoice stores. -/
structure FoldChargeTrace where
  lookups : Nat
  slept_10s : Bool
  raised : Bool
  journal : List DonationJournal
  invoices : List DonationInvoice
  deriving DecidableEq, Repr

/-- Python attribute access on a row already fetched by `objects.get`;
it does not raise (which makes the source's `except` arm around
`row_invoice.subscription_id` unreachable). -/
def attrSubscriptionId (row : DonationInvoice) : Except PyError String :=
  .ok row.subscription_id

/-- Second half of `update_subscription_with_latest_charge_date`,
wrapped in `try/except Exception: handle_exception` in the source: find
the `SUBSCRIPTION_SETUP_AND_INITIAL` journal row for the subscription,
set `last_charged`, then purge invoice rows at least 10 days old
(864000 seconds); any exception here is logged and swallowed. -/
def foldChargeJournalPhase (journal : List DonationJournal)
    (invoices_now : List DonationInvoice) (subscription_id : String)
    (invoice_date now : Nat) (lookups : Nat) (slept : Bool) : FoldChargeTrace :=
  let jmatch := fun (r : DonationJournal) =>
    r.subscription_id == subscription_id && r.record_enum == "SUBSCRIPTION_SETUP_AND_INITIAL"
  match getUnique journal jmatch with
  | .error _ =>
    { lookups, slept_10s := slept, raised := false, journal, invoices := invoices_now }
  | .ok _ =>
    let journal2 := saveWhere jmatch (fun r => { r with last_charged := some invoice_date }) journal
    let invoices2 := invoices_now.filter (fun inv =>
      match inv.invoice_date with
      | none => true
      | some d => !(d + 864000 ≤ now))
    { lookups, slept_10s := slept, raised := false, journal := journal2, invoices := invoices2 }

/-- `DonationManager.update_subscription_with_latest_charge_date` (the
spec's `fold_charge_into_subscription`). `inv_db1` is the invoice store
at the first lookup and `inv_db2` the store as of 10 seconds later (a
concurrent stage may have landed during the sleep). The FIRST
`DonationInvoice.objects.get` sits OUTSIDE the `try`, so its
`DoesNotExist` propagates to the caller; only the attribute read
`row_invoice.subscription_id` is guarded by the sleep-and-retry
`except`. -/
def update_subscription_with_latest_charge_date (inv_db1 inv_db2 : List DonationInvoice)
    (journal : List DonationJournal) (invoice_id : String) (invoice_date now : Nat) :
    FoldChargeTrace :=
  match getUnique inv_db1 (fun inv => inv.invoice_id == invoice_id) with
  | .error _ =>
    { lookups := 1, slept_10s := false, raised := true, journal, invoices := inv_db1 }
  | .ok row1 =>
    match attrSubscriptionId row1 with
    | .ok subscription_id =>
      foldChargeJournalPhase journal inv_db1 subscription_id invoice_date now 1 false
    | .error _ =>
      match getUnique inv_db2 (fun inv => inv.invoice_id == invoice_id) with
      | .error _ =>
        { lookups := 2, slept_10s := true, raised := true, journal, invoices := inv_db2 }
      | .ok row2 =>
        match attrSubscriptionId row2 with
        | .ok subscription_id =>
          foldChargeJournalPhase journal inv_db2 subscription_id invoice_date now 2 true
        | .error _ =>
          { lookups := 2, slept_10s := true, raised := true, journal, invoices := inv_db2 }

/-! ### Plan Catalog: get-or-create and the subscription workflow -/

/-- Would inserting `row` violate the storage uniqueness constraints on
`DonationPlanDefinition` (`voter_we_vote_id` and
`organization_we_vote_id` are `unique=True`, with NULLs exempt)? -/
def uniquenessViolated (db : List DonationPlanDefinition) (row : DonationPlanDefinition) : Bool :=
  db.any (fun r =>
    (row.voter_we_vote_id.isSome && r.voter_we_vote_id == row.voter_we_vote_id) ||
    (row.organization_we_vote_id.isSome
      && r.organization_we_vote_id == row.organization_we_vote_id))

/-- Django `get_or_create` on `DonationPlanDefinition` with every field
as a lookup kwarg: an all-field match returns `(row, False)`; no match
attempts a create, which raises `IntegrityError` on a uniqueness
violation; several matches raise `MultipleObjectsReturned`. -/
def planGetOrCreate (db : List DonationPlanDefinition) (row : DonationPlanDefinition) :
    Except PyError (DonationPlanDefinition × Bool × List DonationPlanDefinition) :=
  match db.filter (fun r => decide (r = row)) with
  | [] =>
    if uniquenessViolated db row then .error .integrityError
    else .ok (row, true, db ++ [row])
  | [r] => .ok (r, false, db)
  | _ :: _ :: _ => .error .multipleObjectsReturned

/-- Oracle for the stripe Plan API as used by
`retrieve_or_create_recurring_donation_plan`: whether `Plan.retrieve`
succeeds (a `StripeError` from it is caught by `except StripeError:
pass`), the id on the retrieved object, whether `Plan.create` raises
(uncaught in the source), and the id `Plan.create` returns. -/
structure StripePlanOracle where
  retrieve_ok : Bool
  retrieve_id : String
  create_raises : Bool
  create_id : String
  deriving DecidableEq, Repr

/-- Result record of `retrieve_or_create_recurring_donation_plan`. -/
structure RocResults where
  success : Bool
  status : String
  org_subs_already_exists : Bool
  multiple_objects_returned : Bool
  recurring_donation_plan_id : String
  deriving DecidableEq, Repr

/-- The `DonationPlanDefinition` kwargs row
`retrieve_or_create_recurring_donation_plan` feeds to `get_or_create`:
for an organization plan the caller-supplied amount is overridden by
the coupon price and the coupon row id is recorded. -/
def rocPlanRow (coupon_db : List OrganizationSubscriptionPlans)
    (voter_we_vote_id : Option String) (donation_plan_id : String) (donation_amount : Int)
    (is_organization_plan : Bool) (coupon_code plan_type_enum : String)
    (organization_we_vote_id : Option String) : DonationPlanDefinition :=
  let priced :=
    if is_organization_plan then get_coupon_price coupon_db plan_type_enum coupon_code
    else (donation_amount, 0)
  { donation_plan_id, plan_name := donation_plan_id, base_cost := priced.1,
    billing_interval := "monthly", currency := "usd", donation_plan_is_active := true,
    is_organization_plan, voter_we_vote_id, organization_we_vote_id,
    organization_subscription_plan_id := priced.2 }

/-- `DonationManager.retrieve_or_create_recurring_donation_plan`.
Mirrors the source's control flow: `success` starts `False` and is set
`True` only when `get_or_create` returns; on `IntegrityError` for an
organization plan only `org_subs_already_exists`/`status` change (so
`success` stays `False`); the model's `MultipleObjectsReturned` is NOT
`DonationManager.MultipleObjectsReturned` and falls to the generic
swallowing handler; `stripe.Plan.create` runs only when no stripe plan
id was retrieved AND no duplicate-organization flag is set. -/
def retrieve_or_create_recurring_donation_plan (stripe : StripePlanOracle)
    (plan_db : List DonationPlanDefinition) (coupon_db : List OrganizationSubscriptionPlans)
    (voter_we_vote_id : Option String) (donation_plan_id : String) (donation_amount : Int)
    (is_organization_plan : Bool) (coupon_code plan_type_enum : String)
    (organization_we_vote_id : Option String) :
    Except PyError (RocResults × List DonationPlanDefinition) :=
  let row := rocPlanRow coupon_db voter_we_vote_id donation_plan_id donation_amount
    is_organization_plan coupon_code plan_type_enum organization_we_vote_id
  let state :=
    match planGetOrCreate plan_db row with
    | .ok (_, is_new, db2) =>
      let st := if is_new then "SUBSCRIPTION_PLAN_CREATED_IN_DATABASE "
        else "DONATION_PLAN_ALREADY_EXISTS_IN_DATABASE "
      let spid := if stripe.retrieve_ok && positive_value_exists stripe.retrieve_id
        then stripe.retrieve_id else ""
      (true, st, false, spid, db2)
    | .error .integrityError =>
      if is_organization_plan then
        (false, "ORGANIZATION_SUBSCRIPTION_ALREADY_EXISTS ", true, "", plan_db)
      else (false, "", false, "", plan_db)
    | .error _ => (false, "", false, "", plan_db)
  match state with
  | (success, status, org_subs_already_exists, stripe_plan_id, db2) =>
    if !(positive_value_exists stripe_plan_id) && !org_subs_already_exists then
      if stripe.create_raises then .error .stripeError
      else if positive_value_exists stripe.create_id then
        .ok ({ success := true, status := status ++ "SUBSCRIPTION_PLAN_CREATED_IN_STRIPE ",
               org_subs_already_exists, multiple_objects_returned := false,
               recurring_donation_plan_id := donation_plan_id }, db2)
      else
        .ok ({ success := false, status := status ++ "SUBSCRIPTION_PLAN_NOT_CREATED_IN_STRIPE ",
               org_subs_already_exists, multiple_objects_returned := false,
               recurring_donation_plan_id := donation_plan_id }, db2)
    else
      .ok ({ success, status, org_subs_already_exists, multiple_objects_returned := false,
             recurring_donation_plan_id := donation_plan_id }, db2)

/-- Oracle for `stripe.Subscription.create`: either the created
subscription `(created_at, id)` or the `StripeError` message. -/
structure SubscriptionOracle where
  create_result : Except String (Nat × String)
  deriving Repr

/-- The three result shapes `create_recurring_donation` can return. -/
inductive CreateRecurringResults where
  | plan_query (res : RocResults)
  | subscribed (status : String) (subscription_plan_id : String)
      (subscription_created_at : Nat) (subscription_id : String)
  | stripe_declined (status : String)
  deriving DecidableEq, Repr

/-- `DonationManager.create_recurring_donation`. The returned `Bool`
records whether `stripe.Subscription.create` was invoked. When the plan
query reports a pre-existing organization subscription (or failure),
its result dict is returned verbatim with no gateway call. -/
def create_recurring_donation (stripe : StripePlanOracle) (sub : SubscriptionOracle)
    (plan_db : List DonationPlanDefinition) (coupon_db : List OrganizationSubscriptionPlans)
    (stripe_customer_id voter_we_vote_id : String) (donation_amount : Int) (email : String)
    (is_organization_plan : Bool) (coupon_code plan_type_enum : String)
    (organization_we_vote_id : Option String) :
    Except PyError (CreateRecurringResults × Bool × List DonationPlanDefinition) :=
  let org_segment := if is_organization_plan then "organization-" else ""
  let donation_plan_id := voter_we_vote_id ++ "-monthly-" ++ org_segment
    ++ toString donation_amount
  match retrieve_or_create_recurring_donation_plan stripe plan_db coupon_db
      (some voter_we_vote_id) donation_plan_id donation_amount is_organization_plan
      coupon_code plan_type_enum organization_we_vote_id with
  | .error e => .error e
  | .ok (q, db2) =>
    if !q.org_subs_already_exists && q.success then
      match sub.create_result with
      | .ok (created_at, sub_id) =>
        .ok (.subscribed (q.status ++ "USER_SUCCESSFULLY_SUBSCRIBED_TO_PLAN ")
          donation_plan_id created_at sub_id, true, db2)
      | .error msg =>
        .ok (.stripe_declined ("STRIPE_ERROR_IS_" ++ msg ++ "_END"), true, db2)
    else
      .ok (.plan_query q, false, db2)

/-! ### Concrete fixtures -/

/-- A fully-refunded journal row used as a concrete test row. -/
def c4_row : DonationJournal :=
  { id := 1, record_enum := "PAYMENT_FROM_UI", voter_we_vote_id := "voterA",
    not_loggedin_voter_we_vote_id := none, stripe_customer_id := "cus_1",
    charge_id := "ch_1", subscription_id := "", subscription_plan_id := "",
    amount := 500, amount_refunded := 500, last4 := 4242,
    stripe_status := "refunded", status := "", last_charged := none }

/-- A coupon row expiring on day 20261012. -/
def c3_db : List OrganizationSubscriptionPlans :=
  [{ id := 1, coupon_code := "25OFF", coupon_expires_date := some 20261012,
     plan_type_enum := "PROFESSIONAL_MONTHLY", plan_created_at := 1,
     coupon_applied_message := "Coupon applied.", monthly_price_stripe := 1250,
     annual_price_stripe := 0, features_provided_bitmap := 1 }]

/-- A setup row for plan `p` whose card details are still unset. -/
def c8_row_unset : DonationJournal :=
  { c4_row with id := 1, charge_id := "x1", subscription_plan_id := "p", last4 := 0 }

/-- A newer row for plan `p` whose card details are already set. -/
def c8_row_set : DonationJournal :=
  { c4_row with id := 2, charge_id := "x2", subscription_plan_id := "p", last4 := 4242 }

/-- The older version of the `25OFF` professional-monthly coupon. -/
def c5_old : OrganizationSubscriptionPlans :=
  { id := 3, coupon_code := "25OFF", coupon_expires_date := none,
    plan_type_enum := "PROFESSIONAL_MONTHLY", plan_created_at := 1,
    coupon_applied_message := "old", monthly_price_stripe := 999,
    annual_price_stripe := 0, features_provided_bitmap := 1 }

/-- The newer version of the `25OFF` professional-monthly coupon. -/
def c5_new : OrganizationSubscriptionPlans :=
  { id := 7, coupon_code := "25OFF", coupon_expires_date := none,
    plan_type_enum := "PROFESSIONAL_MONTHLY", plan_created_at := 5,
    coupon_applied_message := "Coupon applied.  Deducted $25 per month.",
    monthly_price_stripe := 1250, annual_price_stripe := 0, features_provided_bitmap := 1 }

/-- Two stored versions of the same coupon, older one first. -/
def c5_db : List OrganizationSubscriptionPlans := [c5_old, c5_new]

/-- A qualifying (succeeded, positive-amount) refund event. -/
def c6_rf : RefundEvent :=
  { amount := 100, status := "succeeded", created := 5, currency := "usd", id := "re_1" }

/-- The single stored `25OFF` coupon version used for the duplicate
organization-plan scenario. -/
def c2_coupon_db : List OrganizationSubscriptionPlans :=
  [{ id := 7, coupon_code := "25OFF", coupon_expires_date := none,
     plan_type_enum := "PROFESSIONAL_MONTHLY", plan_created_at := 5,
     coupon_applied_message := "Coupon applied.  Deducted $25 per month.",
     monthly_price_stripe := 1250, annual_price_stripe := 0, features_provided_bitmap := 1 }]

/-- The organization's pre-existing plan row: same owner ids, but
created at an earlier price, so `get_or_create`'s all-field lookup
misses and the insert trips the uniqueness constraint. -/
def c2_existing_plan : DonationPlanDefinition :=
  { donation_plan_id := "voter1-monthly-organization-1250",
    plan_name := "voter1-monthly-organization-1250", base_cost := 9999,
    billing_interval := "monthly", currency := "usd", donation_plan_is_active := true,
    is_organization_plan := true, voter_we_vote_id := some "voter1",
    organization_we_vote_id := some "org1", organization_subscription_plan_id := 7 }

/-- Stripe plan oracle for the duplicate scenario (`Plan.retrieve`
raises, which the source passes over). -/
def c2_stripe : StripePlanOracle :=
  { retrieve_ok := false, retrieve_id := "", create_raises := false,
    create_id := "voter1-monthly-organization-1250" }

/-- Subscription oracle for the duplicate scenario (would succeed if
called). -/
def c2_sub : SubscriptionOracle := { create_result := .ok (1000, "sub_1") }

/-! ### Lemmas and claim theorems -/

theorem str_data_append (a b : String) : (a ++ b).data = a.data ++ b.data := rfl

theorem str_length_append (a b : String) : (a ++ b).length = a.length + b.length := by
  show (a ++ b).data.length = a.data.length + b.data.length
  rw [str_data_append, List.length_append]

theorem fitWords_nil (acc : String) (width : Nat) (ph : String) :
    fitWords acc [] width ph = acc ++ ph := rfl

theorem fitWords_cons (acc w : String) (rest : List String) (width : Nat) (ph : String) :
    fitWords acc (w :: rest) width ph =
      if (joinAcc acc w).length + ph.length ≤ width then fitWords (joinAcc acc w) rest width ph
      else if acc == "" then ph else acc ++ ph := rfl

theorem fitWords_length_le (width : Nat) (ph : String) :
    ∀ (ws : List String) (acc : String), acc.length + ph.length ≤ width →
      (fitWords acc ws width ph).length ≤ width := by
  intro ws
  induction ws with
  | nil =>
    intro acc h
    rw [fitWords_nil, str_length_append]
    exact h
  | cons w rest ih =>
    intro acc h
    rw [fitWords_cons]
    split
    · next hc => exact ih _ hc
    · split
      · calc ph.length = 0 + ph.length := (Nat.zero_add _).symm
          _ ≤ acc.length + ph.length := Nat.add_le_add_right (Nat.zero_le _) _
          _ ≤ width := h
      · rw [str_length_append]; exact h

theorem endsWithStr_append (a ph : String) : endsWithStr (a ++ ph) ph = true := by
  simp only [endsWithStr, str_data_append, List.length_append, Nat.add_sub_cancel,
    List.drop_left]
  exact beq_self_eq_true _

theorem endsWithStr_self (ph : String) : endsWithStr ph ph = true := by
  simpa using endsWithStr_append "" ph

theorem fitWords_endsWith (width : Nat) (ph : String) :
    ∀ (ws : List String) (acc : String), endsWithStr (fitWords acc ws width ph) ph = true := by
  intro ws
  induction ws with
  | nil =>
    intro acc
    rw [fitWords_nil]
    exact endsWithStr_append acc ph
  | cons w rest ih =>
    intro acc
    rw [fitWords_cons]
    split
    · exact ih _
    · split
      · exact endsWithStr_self ph
      · exact endsWithStr_append acc ph

theorem shorten_length_le (text : String) (width : Nat) (ph : String)
    (h : ph.length ≤ width) : (shorten text width ph).length ≤ width := by
  simp only [shorten]
  split
  · next hfit => exact hfit
  · exact fitWords_length_le width ph (pyWords text) "" (by simpa using h)

theorem shorten_eq_collapse_or_endsWith (text : String) (width : Nat) (ph : String) :
    shorten text width ph = collapse text ∨ endsWithStr (shorten text width ph) ph = true := by
  simp only [shorten]
  split
  · exact Or.inl rfl
  · exact Or.inr (fitWords_endsWith width ph (pyWords text) "")

theorem orderByDescNat_perm (key : α → Nat) (l : List α) :
    (orderByDescNat key l).Perm l :=
  List.perm_insertionSort _ l

theorem orderByDescNat_sorted (key : α → Nat) (l : List α) :
    List.Sorted (fun a b => key b ≤ key a) (orderByDescNat key l) := by
  haveI : IsTotal α (fun a b => key b ≤ key a) := ⟨fun a b => Nat.le_total (key b) (key a)⟩
  haveI : IsTrans α (fun a b => key b ≤ key a) :=
    ⟨fun _ _ _ hab hbc => Nat.le_trans hbc hab⟩
  exact List.sorted_insertionSort _ l

theorem orderByDescNat_head_max (key : α → Nat) (l : List α) (sel : α) (rest : List α)
    (hsel : orderByDescNat key l = sel :: rest) (x : α) (hx : x ∈ l) : key x ≤ key sel := by
  have hmem : x ∈ orderByDescNat key l := ((orderByDescNat_perm key l).mem_iff).mpr hx
  rw [hsel] at hmem
  rcases List.mem_cons.mp hmem with h | h
  · exact le_of_eq (congrArg key h)
  · have hs := orderByDescNat_sorted key l
    rw [hsel] at hs
    exact (List.sorted_cons.mp hs).1 x h

/-! ### Helper lemmas -/

theorem charsStartWith_append (pat : List Char) :
    ∀ (l extra : List Char), charsStartWith pat l = true →
      charsStartWith pat (l ++ extra) = true := by
  induction pat with
  | nil => intro l extra _; rfl
  | cons p ps ih =>
    intro l extra h
    cases l with
    | nil => simp [charsStartWith] at h
    | cons c cs =>
      simp only [charsStartWith, Bool.and_eq_true] at h ⊢
      exact ⟨h.1, ih cs extra h.2⟩

theorem charsHasInfix_append_left (pat : List Char) :
    ∀ (l1 l2 : List Char), charsHasInfix pat l1 = true →
      charsHasInfix pat (l1 ++ l2) = true := by
  intro l1
  induction l1 with
  | nil =>
    intro l2 h
    simp only [charsHasInfix] at h
    cases pat with
    | nil =>
      cases l2 with
      | nil => rfl
      | cons c cs => simp [charsHasInfix, charsStartWith]
    | cons p ps => simp [charsStartWith] at h
  | cons c cs ih =>
    intro l2 h
    simp only [charsHasInfix, Bool.or_eq_true] at h ⊢
    rcases h with h | h
    · exact Or.inl (charsStartWith_append pat (c :: cs) l2 h)
    · exact Or.inr (ih l2 h)

theorem pyInStr_append_left (pat a b : String) (h : pyInStr pat a = true) :
    pyInStr pat (a ++ b) = true := by
  simp only [pyInStr, str_data_append]
  exact charsHasInfix_append_left pat.data a.data b.data h

theorem filter_eq_cons_self_mem {p : α → Bool} {db : List α} {r : α}
    (h : db.filter p = [r]) : r ∈ db ∧ p r = true := by
  have : r ∈ db.filter p := by rw [h]; exact List.mem_cons_self r []
  exact List.mem_filter.mp this

theorem saveWhere_filter_nil (p : α → Bool) (f : α → α) :
    ∀ (db : List α), db.filter p = [] → (saveWhere p f db).filter p = [] := by
  intro db
  induction db with
  | nil => intro _; rfl
  | cons a tl ih =>
    intro h
    rw [List.filter_cons] at h
    by_cases hpa : p a = true
    · rw [if_pos hpa] at h
      exact absurd h (by simp)
    · rw [if_neg hpa] at h
      show ((a :: tl).map (fun r => if p r then f r else r)).filter p = []
      rw [List.map_cons, List.filter_cons, if_neg hpa, if_neg hpa]
      exact ih h

theorem saveWhere_filter_singleton (p : α → Bool) (f : α → α) :
    ∀ (db : List α) (r : α), db.filter p = [r] → p (f r) = true →
      (saveWhere p f db).filter p = [f r] := by
  intro db
  induction db with
  | nil => intro r h _; simp at h
  | cons a tl ih =>
    intro r h hfr
    rw [List.filter_cons] at h
    by_cases hpa : p a = true
    · rw [if_pos hpa] at h
      have ha : a = r := (List.cons_eq_cons.mp h).1
      have htl : tl.filter p = [] := (List.cons_eq_cons.mp h).2
      show ((a :: tl).map (fun x => if p x then f x else x)).filter p = [f r]
      rw [List.map_cons, List.filter_cons, if_pos hpa, ha, if_pos hfr]
      show f r :: (saveWhere p f tl).filter p = [f r]
      rw [saveWhere_filter_nil p f tl htl]
    · rw [if_neg hpa] at h
      show ((a :: tl).map (fun x => if p x then f x else x)).filter p = [f r]
      rw [List.map_cons, List.filter_cons, if_neg hpa, if_neg hpa]
      exact ih r h hfr

theorem getUnique_of_filter_singleton {p : α → Bool} {db : List α} {r : α}
    (h : db.filter p = [r]) : getUnique db p = .ok r := by
  simp [getUnique, h]

theorem getUnique_of_filter_nil {p : α → Bool} {db : List α}
    (h : db.filter p = []) : getUnique db p = .error .doesNotExist := by
  simp [getUnique, h]

/-! ### Claims -/

/-- C1: the claim says a failed first invoice lookup in
`update_subscription_with_latest_charge_date` sleeps 10 seconds,
retries exactly once, and swallows a second failure. In the source the
first `DonationInvoice.objects.get` sits OUTSIDE the `try`, so when no
invoice row matches, `DoesNotExist` propagates to the caller after a
single lookup, with no sleep and no retry — contradicting the
function's own inline comment ("so try one more time in 10 seconds"). -/
theorem c1_missing_invoice_raises_without_retry (inv_db1 inv_db2 : List DonationInvoice)
    (journal : List DonationJournal) (invoice_id : String) (invoice_date now : Nat)
    (h : inv_db1.filter (fun inv => inv.invoice_id == invoice_id) = []) :
    update_subscription_with_latest_charge_date inv_db1 inv_db2 journal invoice_id
        invoice_date now =
      { lookups := 1, slept_10s := false, raised := true,
        journal := journal, invoices := inv_db1 } := by
  unfold update_subscription_with_latest_charge_date
  rw [getUnique_of_filter_nil h]

/-- C1 witness: folding a charge for invoice `inv_1` into an empty
invoice store raises to the caller after one lookup, without sleeping. -/
theorem c1_missing_invoice_raises_without_retry_witness :
    update_subscription_with_latest_charge_date [] [] [] "inv_1" 100 1000 =
      { lookups := 1, slept_10s := false, raised := true, journal := [], invoices := [] } :=
  c1_missing_invoice_raises_without_retry [] [] [] "inv_1" 100 1000 rfl

/-- C3: the claim (and the expiry column's own description, "after this
date, this coupon can not be used") says a coupon whose expiry date
equals today is still valid. The source compares with strict `<`
(`today_date_as_integer < expires_as_integer`), so a coupon expiring
today is reported invalid, while the day before it is valid. -/
theorem c3_expiry_day_coupon_rejected :
    (validate_coupon c3_db 20261012 "PROFESSIONAL_MONTHLY" "25OFF").coupon_still_valid = false ∧
    (validate_coupon c3_db 20261012 "PROFESSIONAL_MONTHLY" "25OFF").coupon_match_found = true ∧
    (validate_coupon c3_db 20261011 "PROFESSIONAL_MONTHLY" "25OFF").coupon_still_valid = true :=
  ⟨rfl, rfl, rfl⟩

/-- C7: on a failed insert, `update_donation_invoice` intends to report
`success=false` (its `except` arm sets exactly that), but the locals
`status` and `new_invoice_entry` are assigned only inside the `try`, so
building the result dict raises `UnboundLocalError` instead of
returning; a successful insert does report `success=true`. -/
theorem c7_insert_failure_unbound_local (db : List DonationInvoice)
    (subscription_id donation_plan_id invoice_id : String) (invoice_date : Option Nat)
    (customer_id : String) :
    update_donation_invoice false db subscription_id donation_plan_id invoice_id
        invoice_date customer_id = .error .unboundLocalError ∧
    update_donation_invoice true db subscription_id donation_plan_id invoice_id
        invoice_date customer_id =
      .ok ({ success := true, status := "NEW_INVOICE_ENTRY_SAVED",
             history_entry_saved :=
               { subscription_id, donation_plan_id, invoice_id, invoice_date,
                 stripe_customer_id := customer_id } },
           db ++ [{ subscription_id, donation_plan_id, invoice_id, invoice_date,
                    stripe_customer_id := customer_id }]) :=
  ⟨rfl, rfl⟩

/-- C10 counterexample: the claim says `move_donations_between_donors`
for a from-payer with zero journal rows reports success; on an empty
journal it reports `success=false` (with the no-donations status). -/
theorem c10_counterexample :
    (move_donations_between_donors [] "voterX" "voterY").1.success = false ∧
    (move_donations_between_donors [] "voterX" "voterY").2 = [] :=
  ⟨rfl, rfl⟩

/-- C10 (amended): `move_donations_between_donors` for a from-payer
with zero journal rows is a no-op that reports `success=false` with a
"NO-DONATIONS-TO-MOVE" status indicator, and neither creates nor
modifies any journal row. -/
theorem c10_no_rows_noop (db : List DonationJournal) (from_we_vote_id to_we_vote_id : String)
    (h : db.filter (fun r => iexact r.voter_we_vote_id from_we_vote_id) = []) :
    (move_donations_between_donors db from_we_vote_id to_we_vote_id).1.success = false ∧
    pyInStr "NO-DONATIONS-TO-MOVE"
      (move_donations_between_donors db from_we_vote_id to_we_vote_id).1.status = true ∧
    (move_donations_between_donors db from_we_vote_id to_we_vote_id).2 = db := by
  have hres : move_donations_between_donors db from_we_vote_id to_we_vote_id =
      ({ status := " NO-DONATIONS-TO-MOVE-FROM-" ++ from_we_vote_id ++ "-TO-"
          ++ to_we_vote_id ++ " ", success := false }, db) := by
    unfold move_donations_between_donors
    rw [getUnique_of_filter_nil h]
  refine ⟨by rw [hres], ?_, by rw [hres]⟩
  rw [hres]
  apply pyInStr_append_left
  apply pyInStr_append_left
  apply pyInStr_append_left
  apply pyInStr_append_left
  decide

/-- C10 witness: moving from a payer absent from the journal reports
failure with the no-donations indicator and leaves the store unchanged. -/
theorem c10_no_rows_noop_witness :
    (move_donations_between_donors [] "anonVoter" "realVoter").1.success = false ∧
    pyInStr "NO-DONATIONS-TO-MOVE"
      (move_donations_between_donors [] "anonVoter" "realVoter").1.status = true ∧
    (move_donations_between_donors [] "anonVoter" "realVoter").2 = [] :=
  c10_no_rows_noop [] "anonVoter" "realVoter" rfl

/-- C8 counterexample: the claim says
`check_for_subscription_in_db_without_card_info` scans newest-first and
returns the first row with `last4 == 0`, reporting no match only when
no such row exists. With a newer row whose card details are set and an
older row still unset, the source inspects only the newest row and
reports no match (`-1`) although an unset row exists. -/
theorem c8_counterexample :
    check_for_subscription_in_db_without_card_info [c8_row_unset, c8_row_set] "p" = -1 ∧
    c8_row_unset ∈ [c8_row_unset, c8_row_set] ∧
    c8_row_unset.subscription_plan_id = "p" ∧ c8_row_unset.last4 = 0 := by
  refine ⟨rfl, ?_, rfl, rfl⟩
  exact List.mem_cons_self _ _

/-- C8 (amended): `check_for_subscription_in_db_without_card_info`
examines only the single most-recently-created (maximal id) journal row
matching `subscription_plan_id`: it returns that row's id exactly when
its `last4` is 0 and `-1` otherwise — including when an older matching
row still has `last4 = 0` — and returns `-1` when no row matches. -/
theorem c8_newest_row_only (db : List DonationJournal) (plan_id : String) :
    (db.filter (fun r => r.subscription_plan_id == plan_id) = [] →
      check_for_subscription_in_db_without_card_info db plan_id = -1) ∧
    (∀ sel rest,
      (orderByDescNat (fun r => r.id) db).filter
          (fun r => r.subscription_plan_id == plan_id) = sel :: rest →
      sel ∈ db ∧ sel.subscription_plan_id = plan_id ∧
      (∀ x ∈ db, x.subscription_plan_id = plan_id → x.id ≤ sel.id) ∧
      check_for_subscription_in_db_without_card_info db plan_id =
        (if sel.last4 == 0 then (sel.id : Int) else -1)) := by
  constructor
  · intro h
    have hperm := List.Perm.filter (fun r : DonationJournal => r.subscription_plan_id == plan_id)
      (orderByDescNat_perm (fun r : DonationJournal => r.id) db)
    rw [h] at hperm
    have hnil := List.Perm.eq_nil hperm
    unfold check_for_subscription_in_db_without_card_info
    rw [hnil]
  · intro sel rest hsel
    have hmemf : sel ∈ (orderByDescNat (fun r : DonationJournal => r.id) db).filter
        (fun r => r.subscription_plan_id == plan_id) := by
      rw [hsel]; exact List.mem_cons_self _ _
    have hmem0 := List.mem_filter.mp hmemf
    have hmemdb : sel ∈ db := ((orderByDescNat_perm _ db).mem_iff).mp hmem0.1
    have hplan : sel.subscription_plan_id = plan_id := eq_of_beq hmem0.2
    refine ⟨hmemdb, hplan, ?_, ?_⟩
    · intro x hx hxplan
      have hxs : x ∈ orderByDescNat (fun r : DonationJournal => r.id) db :=
        ((orderByDescNat_perm _ db).mem_iff).mpr hx
      have hxf : x ∈ (orderByDescNat (fun r : DonationJournal => r.id) db).filter
          (fun r => r.subscription_plan_id == plan_id) :=
        List.mem_filter.mpr ⟨hxs, by rw [hxplan]; exact beq_self_eq_true _⟩
      rw [hsel] at hxf
      rcases List.mem_cons.mp hxf with h | h
      · exact le_of_eq (congrArg (fun r : DonationJournal => r.id) h)
      · have hs : List.Sorted (fun a b : DonationJournal => b.id ≤ a.id)
            ((orderByDescNat (fun r : DonationJournal => r.id) db).filter
              (fun r => r.subscription_plan_id == plan_id)) :=
          List.Pairwise.sublist (List.filter_sublist _)
            (orderByDescNat_sorted (fun r : DonationJournal => r.id) db)
        rw [hsel] at hs
        exact (List.sorted_cons.mp hs).1 x h
    · unfold check_for_subscription_in_db_without_card_info
      rw [hsel]

/-- C8 witness: with the two-row fixture the newest matching row has
card details set, so the amended rule yields `-1`. -/
theorem c8_newest_row_only_witness :
    check_for_subscription_in_db_without_card_info [c8_row_unset, c8_row_set] "p" =
      (if c8_row_set.last4 == 0 then (c8_row_set.id : Int) else -1) ∧
    c8_row_set ∈ [c8_row_unset, c8_row_set] := by
  have h := (c8_newest_row_only [c8_row_unset, c8_row_set] "p").2 c8_row_set
    [c8_row_unset] (by decide)
  exact ⟨h.2.2.2, h.1⟩

/-- C5: `validate_coupon` and `get_coupon_price` share one queryset
ordered by `-plan_created_at` and read its first row, so with multiple
stored versions of a `(plan_type, coupon_code)` pair both select a row
of maximal creation timestamp, never an earlier one; the populated
price is the monthly price exactly when `"MONTHLY"` is a substring of
the plan type (the other price stays 0); and with no matching row
`validate_coupon` reports `coupon_match_found=false` with both prices
0. -/
theorem c5_latest_version_and_price (db : List OrganizationSubscriptionPlans) (today : Nat)
    (plan_type_enum coupon_code : String) :
    (∀ sel rest, couponQuery db plan_type_enum coupon_code = sel :: rest →
      sel ∈ db ∧ sel.plan_type_enum = plan_type_enum ∧ sel.coupon_code = coupon_code ∧
      (∀ r ∈ db, r.plan_type_enum = plan_type_enum → r.coupon_code = coupon_code →
        r.plan_created_at ≤ sel.plan_created_at) ∧
      (validate_coupon db today plan_type_enum coupon_code).coupon_match_found = true ∧
      (validate_coupon db today plan_type_enum coupon_code).monthly_price_stripe =
        (if pyInStr "MONTHLY" plan_type_enum then sel.monthly_price_stripe else 0) ∧
      (validate_coupon db today plan_type_enum coupon_code).annual_price_stripe =
        (if pyInStr "MONTHLY" plan_type_enum then 0 else sel.annual_price_stripe) ∧
      get_coupon_price db plan_type_enum coupon_code =
        ((if pyInStr "MONTHLY" plan_type_enum then (sel.monthly_price_stripe : Int)
          else (sel.annual_price_stripe : Int)), (sel.id : Int))) ∧
    (couponQuery db plan_type_enum coupon_code = [] →
      (validate_coupon db today plan_type_enum coupon_code).coupon_match_found = false ∧
      (validate_coupon db today plan_type_enum coupon_code).monthly_price_stripe = 0 ∧
      (validate_coupon db today plan_type_enum coupon_code).annual_price_stripe = 0) := by
  constructor
  · intro sel rest hsel
    have hmemf : sel ∈ couponQuery db plan_type_enum coupon_code := by
      rw [hsel]; exact List.mem_cons_self _ _
    have hmem0 := List.mem_filter.mp
      (((orderByDescNat_perm (fun c : OrganizationSubscriptionPlans => c.plan_created_at)
        _).mem_iff).mp hmemf)
    have hmemdb : sel ∈ db := hmem0.1
    have hq := hmem0.2
    rw [Bool.and_eq_true] at hq
    refine ⟨hmemdb, eq_of_beq hq.1, eq_of_beq hq.2, ?_, ?_, ?_, ?_, ?_⟩
    · intro r hr hrt hrc
      have hrf : r ∈ db.filter (fun c => c.plan_type_enum == plan_type_enum
          && c.coupon_code == coupon_code) :=
        List.mem_filter.mpr ⟨hr, by rw [hrt, hrc]; simp⟩
      exact orderByDescNat_head_max (fun c : OrganizationSubscriptionPlans => c.plan_created_at)
        _ sel rest hsel r hrf
    · unfold validate_coupon; rw [hsel]
    · unfold validate_coupon; rw [hsel]
    · unfold validate_coupon; rw [hsel]
    · unfold get_coupon_price; rw [hsel]
  · intro hnil
    refine ⟨?_, ?_, ?_⟩ <;> (unfold validate_coupon; rw [hnil])

/-- C5 witness: with two stored versions of `25OFF`, the newer
(timestamp 5, price 1250, id 7) is selected over the older (timestamp
1, price 999). -/
theorem c5_latest_version_and_price_witness :
    get_coupon_price c5_db "PROFESSIONAL_MONTHLY" "25OFF" = (1250, 7) ∧
    (validate_coupon c5_db 20200101 "PROFESSIONAL_MONTHLY" "25OFF").monthly_price_stripe
      = 1250 := by
  have h := (c5_latest_version_and_price c5_db 20200101 "PROFESSIONAL_MONTHLY" "25OFF").1
    c5_new [c5_old] (by decide)
  refine ⟨?_, ?_⟩
  · rw [h.2.2.2.2.2.2.2]; rfl
  · rw [h.2.2.2.2.2.1]; rfl

theorem refundMatch_applyAlreadyRefunded (charge voter t : String) (r : DonationJournal) :
    refundMatch charge voter (applyAlreadyRefunded t r) = refundMatch charge voter r := rfl

/-- One clean step of `update_journal_entry_for_already_refunded` on a
uniquely-matched row. -/
theorem already_refunded_step (db : List DonationJournal) (charge voter t : String)
    (r : DonationJournal) (h : db.filter (refundMatch charge voter) = [r]) :
    update_journal_entry_for_already_refunded db charge voter t =
      .ok ("True", saveWhere (refundMatch charge voter) (applyAlreadyRefunded t) db) := by
  unfold update_journal_entry_for_already_refunded
  rw [getUnique_of_filter_singleton h]

theorem already_refunded_iter_spec (charge voter : String) :
    ∀ (ts : List String) (db : List DonationJournal) (r : DonationJournal),
      db.filter (refundMatch charge voter) = [r] →
      ∃ db2, already_refunded_iter db charge voter ts = .ok db2 ∧
        db2.filter (refundMatch charge voter) =
          [ts.foldl (fun acc t => applyAlreadyRefunded t acc) r] := by
  intro ts
  induction ts with
  | nil => intro db r h; exact ⟨db, rfl, h⟩
  | cons t ts ih =>
    intro db r h
    have hpr : refundMatch charge voter r = true := (filter_eq_cons_self_mem h).2
    have hfilter2 : (saveWhere (refundMatch charge voter) (applyAlreadyRefunded t) db).filter
        (refundMatch charge voter) = [applyAlreadyRefunded t r] :=
      saveWhere_filter_singleton _ _ db r h
        (by rw [refundMatch_applyAlreadyRefunded]; exact hpr)
    obtain ⟨db2, hiter, hfin⟩ := ih _ _ hfilter2
    refine ⟨db2, ?_, ?_⟩
    · rw [already_refunded_iter, already_refunded_step db charge voter t r h]
      exact hiter
    · rw [hfin, List.foldl_cons]

theorem foldl_already_refunded_amount :
    ∀ (ts : List String) (r : DonationJournal),
      (ts.foldl (fun acc t => applyAlreadyRefunded t acc) r).amount = r.amount := by
  intro ts
  induction ts with
  | nil => intro r; rfl
  | cons t ts ih => intro r; exact ih (applyAlreadyRefunded t r)

theorem foldl_already_refunded_fields :
    ∀ (ts : List String) (r : DonationJournal), ts ≠ [] →
      (ts.foldl (fun acc t => applyAlreadyRefunded t acc) r).amount_refunded = r.amount ∧
      (ts.foldl (fun acc t => applyAlreadyRefunded t acc) r).stripe_status = "refunded" := by
  intro ts
  induction ts with
  | nil => intro r h; exact absurd rfl h
  | cons t ts ih =>
    intro r _
    cases ts with
    | nil => exact ⟨rfl, rfl⟩
    | cons t2 ts2 =>
      have h2 := ih (applyAlreadyRefunded t r) (by simp)
      have hamount : (applyAlreadyRefunded t r).amount = r.amount := rfl
      rw [List.foldl_cons]
      exact ⟨h2.1.trans hamount, h2.2⟩

/-- C4 counterexample: the claim says the status text contains exactly
one "already refunded" audit clause regardless of how many times the
correction runs. Two invocations on the fixture row leave TWO
`CHARGE_WAS_ALREADY_REFUNDED` clauses in the stored status. -/
theorem c4_counterexample :
    (already_refunded_iter [c4_row] "ch_1" "voterA"
        ["2019-01-01 00:00:00", "2019-01-02 11:11:11"]).map
      (fun db => db.map (fun r => countSubstr "CHARGE_WAS_ALREADY_REFUNDED" r.status)) =
    .ok [2] := rfl

/-- C4 (amended): `update_journal_entry_for_already_refunded` is
idempotent on the matched row's monetary state — after any positive
number of invocations `amount_refunded` equals the row's original
`amount` and `stripe_status` is `refunded` — but each invocation
rewrites the status to the 255-char truncation of the previous status
with one MORE "already refunded" clause appended (the iterated row is
exactly the fold of `applyAlreadyRefunded`), so the status accumulates
clauses rather than containing exactly one. -/
theorem c4_already_refunded_idempotent_fields (db : List DonationJournal)
    (charge voter : String) (r : DonationJournal)
    (hone : db.filter (refundMatch charge voter) = [r]) (ts : List String) (hne : ts ≠ []) :
    ∃ db2, already_refunded_iter db charge voter ts = .ok db2 ∧
      db2.filter (refundMatch charge voter) =
        [ts.foldl (fun acc t => applyAlreadyRefunded t acc) r] ∧
      (ts.foldl (fun acc t => applyAlreadyRefunded t acc) r).amount_refunded = r.amount ∧
      (ts.foldl (fun acc t => applyAlreadyRefunded t acc) r).stripe_status = "refunded" := by
  obtain ⟨db2, hiter, hfilter⟩ := already_refunded_iter_spec charge voter ts db r hone
  have hf := foldl_already_refunded_fields ts r hne
  exact ⟨db2, hiter, hfilter, hf.1, hf.2⟩

/-- C4 witness: one invocation on the fixture row: the journal update
succeeds, the matched row is the applied fold, `amount_refunded` is
forced back to the original amount and `stripe_status` to `refunded`. -/
theorem c4_already_refunded_idempotent_fields_witness :
    ∃ db2, already_refunded_iter [c4_row] "ch_1" "voterA" ["2019-03-03 10:00:00"] = .ok db2 ∧
      db2.filter (refundMatch "ch_1" "voterA") =
        [(["2019-03-03 10:00:00"] : List String).foldl
          (fun acc t => applyAlreadyRefunded t acc) c4_row] ∧
      ((["2019-03-03 10:00:00"] : List String).foldl
        (fun acc t => applyAlreadyRefunded t acc) c4_row).amount_refunded = c4_row.amount ∧
      ((["2019-03-03 10:00:00"] : List String).foldl
        (fun acc t => applyAlreadyRefunded t acc) c4_row).stripe_status = "refunded" :=
  c4_already_refunded_idempotent_fields [c4_row] "ch_1" "voterA" c4_row rfl
    ["2019-03-03 10:00:00"] (by simp)

/-- C6 counterexample: the claim says a qualifying refund whose charge
id matches no journal row causes the operation to "report failure".
On an empty journal the source's unguarded `objects.get` raises
`DoesNotExist` to the caller instead of returning the failure string. -/
theorem c6_counterexample :
    update_journal_entry_for_refund [] "ch_1" "voterA" (some c6_rf) =
      .error .doesNotExist ∧
    update_journal_entry_for_refund [] "ch_1" "voterA" (some c6_rf) ≠
      .ok ("False", []) :=
  ⟨rfl, fun h => nomatch h⟩

/-- C6 (amended): `update_journal_entry_for_refund` mutates the
uniquely-matched journal row (stripe_status `refund pending`,
`amount_refunded` set to the refund amount, audit clause appended)
exactly when the refund event is present with status `succeeded` and
amount > 0 and a unique matching charge row exists; a missing,
zero-amount or non-succeeded refund causes no mutation and reports
failure (`"False"`); a qualifying refund with no matching charge row
causes no mutation but lets a does-not-exist error propagate instead of
reporting failure. -/
theorem c6_refund_mutation_conditions (db : List DonationJournal)
    (charge voter : String) (refund : Option RefundEvent) :
    (∀ rf r, refund = some rf → rf.amount > 0 → rf.status = "succeeded" →
      db.filter (refundMatch charge voter) = [r] →
      update_journal_entry_for_refund db charge voter refund =
        .ok ("True", saveWhere (refundMatch charge voter) (applyRefund rf) db) ∧
      (saveWhere (refundMatch charge voter) (applyRefund rf) db).filter
        (refundMatch charge voter) = [applyRefund rf r] ∧
      (applyRefund rf r).stripe_status = "refund pending" ∧
      (applyRefund rf r).amount_refunded = rf.amount) ∧
    ((refund = none ∨ ∃ rf, refund = some rf ∧ (rf.amount = 0 ∨ rf.status ≠ "succeeded")) →
      update_journal_entry_for_refund db charge voter refund = .ok ("False", db)) ∧
    (∀ rf, refund = some rf → rf.amount > 0 → rf.status = "succeeded" →
      db.filter (refundMatch charge voter) = [] →
      update_journal_entry_for_refund db charge voter refund = .error .doesNotExist) := by
  refine ⟨?_, ?_, ?_⟩
  · intro rf r hrf hamt hst hone
    subst hrf
    have hpr : refundMatch charge voter r = true := (filter_eq_cons_self_mem hone).2
    have hmatch : refundMatch charge voter (applyRefund rf r) = refundMatch charge voter r :=
      rfl
    have hcond : (decide (rf.amount > 0) && (rf.status == "succeeded")) = true := by
      simp [hamt, hst]
    refine ⟨?_, ?_, rfl, rfl⟩
    · simp only [update_journal_entry_for_refund]
      rw [if_pos hcond, getUnique_of_filter_singleton hone]
    · exact saveWhere_filter_singleton _ _ db r hone (hmatch ▸ hpr)
  · intro hdisq
    rcases hdisq with hnone | ⟨rf, hrf, hbad⟩
    · subst hnone; rfl
    · subst hrf
      have hcond : (decide (rf.amount > 0) && (rf.status == "succeeded")) = false := by
        rcases hbad with h0 | hs
        · simp [h0]
        · simp [hs]
      simp only [update_journal_entry_for_refund]
      rw [if_neg (by simp [hcond])]
  · intro rf hrf hamt hst hnil
    subst hrf
    have hcond : (decide (rf.amount > 0) && (rf.status == "succeeded")) = true := by
      simp [hamt, hst]
    simp only [update_journal_entry_for_refund]
    rw [if_pos hcond, getUnique_of_filter_nil hnil]

/-- C6 witness: a qualifying refund against the fixture row mutates
exactly that row to `refund pending` with the refunded amount
recorded. -/
theorem c6_refund_mutation_conditions_witness :
    update_journal_entry_for_refund [c4_row] "ch_1" "voterA" (some c6_rf) =
      .ok ("True", saveWhere (refundMatch "ch_1" "voterA") (applyRefund c6_rf) [c4_row]) ∧
    (saveWhere (refundMatch "ch_1" "voterA") (applyRefund c6_rf) [c4_row]).filter
      (refundMatch "ch_1" "voterA") = [applyRefund c6_rf c4_row] ∧
    (applyRefund c6_rf c4_row).stripe_status = "refund pending" ∧
    (applyRefund c6_rf c4_row).amount_refunded = c6_rf.amount :=
  (c6_refund_mutation_conditions [c4_row] "ch_1" "voterA" (some c6_rf)).1 c6_rf c4_row
    rfl (by decide) rfl rfl

/-- C9: every status-append operation on a journal row — refund
requested, refund completed, already-refunded — stores
`textwrap.shorten(..., width=255, placeholder="...")` of the appended
text, so the stored status is at most 255 characters, and it is either
exactly the whitespace-collapsed appended text (no truncation) or it
ends with the ellipsis marker. -/
theorem applyRefund_status (rf : RefundEvent) (r : DonationJournal) :
    (applyRefund rf r).status = shorten (refundRawStatus rf r) 255 "..." := by
  simp only [applyRefund]

theorem applyAlreadyRefunded_status (now_str : String) (r : DonationJournal) :
    (applyAlreadyRefunded now_str r).status =
      shorten (alreadyRefundedRawStatus now_str r) 255 "..." := by
  simp only [applyAlreadyRefunded]

theorem applyRefundCompleted_status (now_str : String) (r : DonationJournal) :
    (applyRefundCompleted now_str r).status =
      shorten (refundCompletedRawStatus now_str r) 255 "..." := by
  simp only [applyRefundCompleted]

theorem c9_status_bounded_with_ellipsis (r : DonationJournal) (rf : RefundEvent)
    (now_str completed_str : String) :
    ((applyRefund rf r).status.length ≤ 255 ∧
      ((applyRefund rf r).status = collapse (refundRawStatus rf r) ∨
        endsWithStr (applyRefund rf r).status "..." = true)) ∧
    ((applyAlreadyRefunded now_str r).status.length ≤ 255 ∧
      ((applyAlreadyRefunded now_str r).status = collapse (alreadyRefundedRawStatus now_str r) ∨
        endsWithStr (applyAlreadyRefunded now_str r).status "..." = true)) ∧
    ((applyRefundCompleted completed_str r).status.length ≤ 255 ∧
      ((applyRefundCompleted completed_str r).status =
          collapse (refundCompletedRawStatus completed_str r) ∨
        endsWithStr (applyRefundCompleted completed_str r).status "..." = true)) := by
  rw [applyRefund_status, applyAlreadyRefunded_status, applyRefundCompleted_status]
  exact ⟨⟨shorten_length_le (refundRawStatus rf r) 255 "..." (by decide),
      shorten_eq_collapse_or_endsWith (refundRawStatus rf r) 255 "..."⟩,
    ⟨shorten_length_le (alreadyRefundedRawStatus now_str r) 255 "..." (by decide),
      shorten_eq_collapse_or_endsWith (alreadyRefundedRawStatus now_str r) 255 "..."⟩,
    ⟨shorten_length_le (refundCompletedRawStatus completed_str r) 255 "..." (by decide),
      shorten_eq_collapse_or_endsWith (refundCompletedRawStatus completed_str r) 255 "..."⟩⟩

/-- C2 counterexample: the claim says the duplicate organization plan
call returns `success=true` with `org_subs_already_exists=true`; on the
uniqueness-violation path the source never reaches the line that sets
`success = True`, so the call returns `success=false` (with
`org_subs_already_exists=true`). -/
theorem c2_counterexample :
    retrieve_or_create_recurring_donation_plan c2_stripe [c2_existing_plan] c2_coupon_db
      (some "voter1") "voter1-monthly-organization-1250" 1250 true "25OFF"
      "PROFESSIONAL_MONTHLY" (some "org1") =
    .ok ({ success := false, status := "ORGANIZATION_SUBSCRIPTION_ALREADY_EXISTS ",
           org_subs_already_exists := true, multiple_objects_returned := false,
           recurring_donation_plan_id := "voter1-monthly-organization-1250" },
         [c2_existing_plan]) := rfl

/-- C2 (amended): when `retrieve_or_create_recurring_donation_plan`
hits the storage uniqueness constraint for an organization plan
(`IntegrityError`), it returns `success=false` with
`org_subs_already_exists=true` and the `ORGANIZATION_SUBSCRIPTION_
ALREADY_EXISTS` status, leaving the plan store unchanged; and
`create_recurring_donation` then returns that result verbatim without
calling the gateway to create a subscription. -/
theorem c2_duplicate_org_plan (stripe : StripePlanOracle) (sub : SubscriptionOracle)
    (plan_db : List DonationPlanDefinition) (coupon_db : List OrganizationSubscriptionPlans)
    (customer voter : String) (amount : Int) (email coupon ptype : String)
    (org : Option String)
    (hfilter : plan_db.filter (fun pr => decide (pr = rocPlanRow coupon_db (some voter)
        (voter ++ "-monthly-" ++ "organization-" ++ toString amount) amount true coupon
        ptype org)) = [])
    (hviol : uniquenessViolated plan_db (rocPlanRow coupon_db (some voter)
        (voter ++ "-monthly-" ++ "organization-" ++ toString amount) amount true coupon
        ptype org) = true) :
    retrieve_or_create_recurring_donation_plan stripe plan_db coupon_db (some voter)
        (voter ++ "-monthly-" ++ "organization-" ++ toString amount) amount true coupon
        ptype org =
      .ok ({ success := false, status := "ORGANIZATION_SUBSCRIPTION_ALREADY_EXISTS ",
             org_subs_already_exists := true, multiple_objects_returned := false,
             recurring_donation_plan_id :=
               voter ++ "-monthly-" ++ "organization-" ++ toString amount }, plan_db) ∧
    create_recurring_donation stripe sub plan_db coupon_db customer voter amount email
        true coupon ptype org =
      .ok (.plan_query
             { success := false, status := "ORGANIZATION_SUBSCRIPTION_ALREADY_EXISTS ",
               org_subs_already_exists := true, multiple_objects_returned := false,
               recurring_donation_plan_id :=
                 voter ++ "-monthly-" ++ "organization-" ++ toString amount },
           false, plan_db) := by
  have hgoc : planGetOrCreate plan_db (rocPlanRow coupon_db (some voter)
      (voter ++ "-monthly-" ++ "organization-" ++ toString amount) amount true coupon
      ptype org) = .error .integrityError := by
    unfold planGetOrCreate
    rw [hfilter, if_pos hviol]
  have hroc : retrieve_or_create_recurring_donation_plan stripe plan_db coupon_db (some voter)
      (voter ++ "-monthly-" ++ "organization-" ++ toString amount) amount true coupon
      ptype org =
      .ok ({ success := false, status := "ORGANIZATION_SUBSCRIPTION_ALREADY_EXISTS ",
             org_subs_already_exists := true, multiple_objects_returned := false,
             recurring_donation_plan_id :=
               voter ++ "-monthly-" ++ "organization-" ++ toString amount }, plan_db) := by
    simp only [retrieve_or_create_recurring_donation_plan, hgoc, if_true]
    rfl
  refine ⟨hroc, ?_⟩
  simp only [create_recurring_donation, if_true]
  rw [hroc]
  rfl

/-- C2 witness: the concrete duplicate scenario — coupon price 1250,
existing row for the same organization at another price — yields
`success=false, org_subs_already_exists=true` and the workflow returns
it verbatim with no gateway subscription call. -/
theorem c2_duplicate_org_plan_witness :
    retrieve_or_create_recurring_donation_plan c2_stripe [c2_existing_plan] c2_coupon_db
        (some "voter1") ("voter1" ++ "-monthly-" ++ "organization-" ++ toString (1250 : Int))
        1250 true "25OFF" "PROFESSIONAL_MONTHLY" (some "org1") =
      .ok ({ success := false, status := "ORGANIZATION_SUBSCRIPTION_ALREADY_EXISTS ",
             org_subs_already_exists := true, multiple_objects_returned := false,
             recurring_donation_plan_id :=
               "voter1" ++ "-monthly-" ++ "organization-" ++ toString (1250 : Int) },
           [c2_existing_plan]) ∧
    create_recurring_donation c2_stripe c2_sub [c2_existing_plan] c2_coupon_db "cus_1"
        "voter1" 1250 "donor@example.org" true "25OFF" "PROFESSIONAL_MONTHLY"
        (some "org1") =
      .ok (.plan_query
             { success := false, status := "ORGANIZATION_SUBSCRIPTION_ALREADY_EXISTS ",
               org_subs_already_exists := true, multiple_objects_returned := false,
               recurring_donation_plan_id :=
                 "voter1" ++ "-monthly-" ++ "organization-" ++ toString (1250 : Int) },
           false, [c2_existing_plan]) :=
  c2_duplicate_org_plan c2_stripe c2_sub [c2_existing_plan] c2_coupon_db "cus_1" "voter1"
    1250 "donor@example.org" "25OFF" "PROFESSIONAL_MONTHLY" (some "org1")
    (by decide) (by decide)

end WeVote
